import Mathlib

/-!
Verification of the PythonWhisperCPP batch subtitle tool.

The development shallowly embeds the two Python source files
(`whisper.py` and `main.py`) of the repository.  Paths are modelled as
their list of `pathlib` parts, the filesystem as a list of entries
(path, directory flag, executable-permission flag), and the observable
behaviour of a run as a trace of events: printed lines and subprocess
invocations.  The two external collaborators (ffmpeg and the
whisper.cpp executable) are opaque; their only modelled effect is
whether they produce their output file, plus an exit code that the
Python code never reads.
-/

/-- Python `pathlib.Path`, modelled as its list of parts
(for example `Path("/tmp/a.wav")` has parts `["/", "tmp", "a.wav"]`). -/
structure PyPath where
  components : List String
deriving DecidableEq, Repr

namespace PyPath

/-- Python `Path.name`: the final component (empty for an empty path). -/
def name (p : PyPath) : String :=
  (p.components.getLast?).getD ""

/-- Python `Path.parent`: drop the final component. -/
def parent (p : PyPath) : PyPath :=
  ⟨p.components.dropLast⟩

/-- Python `parent / child`: append one component. -/
def child (p : PyPath) (n : String) : PyPath :=
  ⟨p.components ++ [n]⟩

end PyPath

/-- Index of the last occurrence of a dot in a list of characters,
mirroring Python `str.rfind` restricted to a hit. -/
def lastDotIndex : List Char → Option Nat
  | [] => none
  | c :: rest =>
    match lastDotIndex rest with
    | some i => some (i + 1)
    | none => if c = '.' then some 0 else none

/-- Python `pathlib` stem/suffix split of a file name: the suffix starts
at the last dot, provided that dot is neither the first nor the last
character; otherwise the suffix is empty. -/
def pySplitExt (n : String) : String × String :=
  let cs := n.toList
  match lastDotIndex cs with
  | some i =>
    if 0 < i ∧ i < cs.length - 1 then (⟨cs.take i⟩, ⟨cs.drop i⟩) else (n, "")
  | none => (n, "")

/-- Python `Path.stem`. -/
def PyPath.stem (p : PyPath) : String := (pySplitExt p.name).1

/-- Python `Path.suffix`. -/
def PyPath.suffix (p : PyPath) : String := (pySplitExt p.name).2

/-- Python `str(path)` rendering, used only inside printed status lines. -/
def PyPath.render (p : PyPath) : String :=
  match p.components with
  | "/" :: rest => "/" ++ String.intercalate "/" rest
  | cs => String.intercalate "/" cs

/-- One filesystem entry: its path, whether it is a directory, and
whether it carries executable permission. -/
structure FSEntry where
  path : PyPath
  isDir : Bool
  isExec : Bool
deriving DecidableEq, Repr

/-- A filesystem snapshot: the list of entries, in enumeration order. -/
structure FS where
  entries : List FSEntry
deriving DecidableEq, Repr

namespace FS

/-- Python `path.exists()`. -/
def pathExists (fs : FS) (p : PyPath) : Bool :=
  fs.entries.any fun e => decide (e.path = p)

/-- Python `path.is_file()`: a non-directory entry at `p`. -/
def isFile (fs : FS) (p : PyPath) : Bool :=
  fs.entries.any fun e => decide (e.path = p) && !e.isDir

/-- Python `path.is_dir()`. -/
def isDir (fs : FS) (p : PyPath) : Bool :=
  fs.entries.any fun e => decide (e.path = p) && e.isDir

/-- Effect of `open(p, "w")` or of a tool writing its output file:
create a file entry at `p` unless something already exists there
(contents are not modelled, so truncation is a no-op). -/
def createFile (fs : FS) (p : PyPath) : FS :=
  if fs.pathExists p then fs else ⟨fs.entries ++ [⟨p, false, false⟩]⟩

/-- Effect of `path.unlink()`: drop any file entry at `p`
(`missing_ok` behaviour — absence is not an error). -/
def removeFile (fs : FS) (p : PyPath) : FS :=
  ⟨fs.entries.filter fun e => !(decide (e.path = p) && !e.isDir)⟩

/-- Effect of `os.makedirs(p, exist_ok=True)` for the flat `logs/`
directory used by the code. -/
def makedirs (fs : FS) (p : PyPath) : FS :=
  if fs.pathExists p then fs else ⟨fs.entries ++ [⟨p, true, false⟩]⟩

/-- Python `dir.glob("*")`: the entries directly inside `dir`, in
enumeration order; pathlib yields nothing when `dir` is not a
directory. -/
def globStar (fs : FS) (d : PyPath) : List FSEntry :=
  if fs.isDir d then
    fs.entries.filter fun e => decide (e.path.parent = d) && !decide (e.path = d)
  else []

/-- Python `dir.rglob("*")`: all strict descendants of `dir`, in
enumeration order; pathlib yields nothing when `dir` is not a
directory. -/
def rglobStar (fs : FS) (d : PyPath) : List PyPath :=
  if fs.isDir d then
    (fs.entries.filter fun e =>
      decide (d.components <+: e.path.components) && !decide (e.path = d)).map (·.path)
  else []

/-- The file entries of the snapshot (directories dropped). -/
def filesList (fs : FS) : List FSEntry :=
  fs.entries.filter fun e => !e.isDir

end FS

/-- One observable event of a run: a printed line, or one of the two
subprocess invocations (`subprocess.run` on ffmpeg, respectively on the
whisper.cpp executable). -/
inductive Event
  | printed (s : String)
  | ranFfmpeg
  | ranWhisper
deriving DecidableEq, Repr

/-- Whether an event is a subprocess invocation. -/
def Event.isSubprocess : Event → Bool
  | .ranFfmpeg => true
  | .ranWhisper => true
  | .printed _ => false

/-- The Python exceptions the embedded code can raise. -/
inductive PyError
  | valueError
  | typeError
  | fileNotFound
deriving DecidableEq, Repr

/-- Opaque behaviour of the two external tools on one input: whether
each produces its output file, and the exit codes `subprocess.run`
returns (which the Python code never reads). -/
structure ToolBehavior where
  ffmpegWritesWav : Bool
  whisperWritesSrt : Bool
  ffmpegExitCode : Int
  whisperExitCode : Int
deriving DecidableEq, Repr

namespace Whisper

/-- `Whisper.temp_path = Path("/tmp")` (whisper.py line 7). -/
def temp_path : PyPath := ⟨["/", "tmp"]⟩

/-- `Whisper._get_temp_wav_path` (whisper.py lines 40-42). -/
def get_temp_wav_path (file : PyPath) : PyPath :=
  temp_path.child (file.stem ++ ".wav")

/-- `Whisper._get_temp_srt_path` (whisper.py lines 43-45). -/
def get_temp_srt_path (file : PyPath) : PyPath :=
  temp_path.child (file.stem ++ ".wav.srt")

/-- `Whisper._get_final_srt_file` (whisper.py lines 46-48). -/
def get_final_srt_file (file : PyPath) : PyPath :=
  file.parent.child (file.stem ++ ".en.srt")

/-- `Whisper.should_create_srt` (whisper.py lines 144-152): true iff
the final SRT file does not exist.  Note the method takes no force
parameter. -/
def should_create_srt (fs : FS) (input_file : PyPath) : Bool :=
  if fs.pathExists (get_final_srt_file input_file) then false else true

/-- The parameter names of `Whisper.should_create_srt` (after the
implicit `cls`), from its signature in whisper.py line 145. -/
def should_create_srt_params : List String := ["input_file"]

end Whisper

/-- Whether a path lies strictly inside the shared temp directory. -/
def in_temp_dir (p : PyPath) : Bool :=
  decide (Whisper.temp_path.components <+: p.components) && !decide (p = Whisper.temp_path)

/-- A prefix of a list with one element appended is either a prefix of
the shorter list or the whole appended list. -/
lemma prefix_concat_cases {α : Type} (l l' : List α) (a : α)
    (h : l <+: l' ++ [a]) : l <+: l' ∨ l = l' ++ [a] := by
  obtain ⟨t, ht⟩ := h
  induction t using List.reverseRecOn with
  | nil =>
    right
    simpa using ht
  | append_singleton t' b _ =>
    left
    rw [← List.append_assoc] at ht
    have hd := congrArg List.dropLast ht
    simp only [List.dropLast_concat] at hd
    exact ⟨t', hd⟩

/-- Claim C2 (counterexample): for the video `/tmp/clip.mp4` the derived
final subtitle path `/tmp/clip.en.srt` lies inside the shared temp
directory, so "never inside the shared temp directory" is false as a
universal statement. -/
theorem final_srt_inside_temp_counterexample :
    in_temp_dir (Whisper.get_final_srt_file ⟨["/", "tmp", "clip.mp4"]⟩) = true := by
  decide

/-- Claim C2 (amended): for every video path `v` the derived final
subtitle path equals `parent(v) / (stem(v) ++ ".en.srt")`, hence is a
sibling of `v`; it lies inside the shared temp directory only when `v`
itself does. -/
theorem final_srt_sibling_amended (v : PyPath) :
    (Whisper.get_final_srt_file v).parent = v.parent ∧
    (in_temp_dir (Whisper.get_final_srt_file v) = true → in_temp_dir v = true) := by
  constructor
  · simp [Whisper.get_final_srt_file, PyPath.child, PyPath.parent]
  · intro h
    simp only [in_temp_dir, Bool.and_eq_true, decide_eq_true_eq, Bool.not_eq_true',
      decide_eq_false_iff_not] at h ⊢
    obtain ⟨hpre, hne⟩ := h
    simp only [Whisper.get_final_srt_file, PyPath.child, PyPath.parent] at hpre hne
    rcases prefix_concat_cases _ _ _ hpre with hcase | hcase
    · have hdp : v.components.dropLast <+: v.components := List.dropLast_prefix v.components
      have hpre2 : Whisper.temp_path.components <+: v.components := hcase.trans hdp
      refine ⟨hpre2, ?_⟩
      intro hv
      have hlen : Whisper.temp_path.components.length ≤ v.components.dropLast.length :=
        hcase.length_le
      rw [List.length_dropLast] at hlen
      have hvlen : v.components.length = Whisper.temp_path.components.length := by
        rw [hv]
      have : Whisper.temp_path.components.length = 2 := by decide
      omega
    · exact absurd (congrArg PyPath.mk hcase.symm) hne

/-- Witness for the amended claim C2 at the video `/tmp/x/clip.mp4`:
its final subtitle path is its sibling, and since that path lies in the
temp directory, so does the video itself. -/
theorem final_srt_sibling_amended_witness :
    (Whisper.get_final_srt_file ⟨["/", "tmp", "x", "clip.mp4"]⟩).parent =
      (⟨["/", "tmp", "x", "clip.mp4"]⟩ : PyPath).parent ∧
    in_temp_dir ⟨["/", "tmp", "x", "clip.mp4"]⟩ = true :=
  ⟨(final_srt_sibling_amended ⟨["/", "tmp", "x", "clip.mp4"]⟩).1,
   (final_srt_sibling_amended ⟨["/", "tmp", "x", "clip.mp4"]⟩).2 (by decide)⟩

/-- Paths with component lists of different lengths are different. -/
lemma PyPath.ne_of_components_length {p q : PyPath}
    (h : p.components.length ≠ q.components.length) : p ≠ q := by
  intro he
  exact h (by rw [he])

/-- Appending strings of different lengths to the same string yields
different strings. -/
lemma append_ne_of_length_ne (s t u : String) (h : t.length ≠ u.length) :
    s ++ t ≠ s ++ u := by
  intro he
  have hl := congrArg String.length he
  rw [String.length_append, String.length_append] at hl
  omega

/-- The temp transcript path and the temp audio path of one input are
always different (their last components differ in length). -/
lemma temp_srt_ne_temp_wav (v : PyPath) :
    Whisper.get_temp_srt_path v ≠ Whisper.get_temp_wav_path v := by
  intro h
  have hc : Whisper.temp_path.components ++ [v.stem ++ ".wav.srt"] =
      Whisper.temp_path.components ++ [v.stem ++ ".wav"] :=
    congrArg PyPath.components h
  have h2 := List.append_cancel_left hc
  simp only [List.cons.injEq, and_true] at h2
  exact append_ne_of_length_ne _ _ _ (by decide) h2

/-- The final subtitle path never equals the relative `logs` directory
(its last component always carries the `.en.srt` tail). -/
lemma final_srt_ne_logs (v : PyPath) :
    Whisper.get_final_srt_file v ≠ ⟨["logs"]⟩ := by
  intro h
  have hc : v.parent.components ++ [v.stem ++ ".en.srt"] = ["logs"] :=
    congrArg PyPath.components h
  cases hp : v.parent.components with
  | nil =>
    rw [hp] at hc
    simp only [List.nil_append, List.cons.injEq, and_true] at hc
    have hl := congrArg String.length hc
    rw [String.length_append] at hl
    have h7 : (".en.srt").length = 7 := rfl
    have h4 : ("logs").length = 4 := rfl
    omega
  | cons y ys =>
    rw [hp] at hc
    have hl := congrArg List.length hc
    simp [List.length_append] at hl

namespace FS

/-- `makedirs` at a different path does not change existence. -/
lemma pathExists_makedirs_of_ne (fs : FS) (d p : PyPath) (h : p ≠ d) :
    (fs.makedirs d).pathExists p = fs.pathExists p := by
  unfold makedirs
  split
  · rfl
  · have hdp : d ≠ p := Ne.symm h
    simp [pathExists, hdp]

/-- `createFile` at a different path does not change existence. -/
lemma pathExists_createFile_of_ne (fs : FS) (q p : PyPath) (h : p ≠ q) :
    (fs.createFile q).pathExists p = fs.pathExists p := by
  unfold createFile
  split
  · rfl
  · have hqp : q ≠ p := Ne.symm h
    simp [pathExists, hqp]

/-- `removeFile` at a different path does not change existence. -/
lemma pathExists_removeFile_of_ne (fs : FS) (q p : PyPath) (h : p ≠ q) :
    (fs.removeFile q).pathExists p = fs.pathExists p := by
  have key : ∀ (b c : Bool), (b = true ↔ c = true) → b = c := by decide
  simp only [pathExists, removeFile]
  apply key
  simp only [List.any_eq_true, List.mem_filter]
  constructor
  · rintro ⟨e, ⟨he, _⟩, hp⟩
    exact ⟨e, he, hp⟩
  · rintro ⟨e, he, hp⟩
    refine ⟨e, ⟨he, ?_⟩, hp⟩
    have hep : e.path = p := of_decide_eq_true hp
    simp [hep, h]

/-- `makedirs` adds no file entry. -/
lemma filesList_makedirs (fs : FS) (d : PyPath) :
    (fs.makedirs d).filesList = fs.filesList := by
  unfold makedirs
  split
  · rfl
  · simp [filesList, List.filter_append]

end FS

namespace Whisper

/-- The field set of the `Whisper` engine after `__init__`
(whisper.py lines 9-38), with thread counts already clamped. -/
structure Cfg where
  whisper_executable : Option PyPath
  model_path : PyPath
  force_creation : Bool
  ffmpeg_threads : Int
  whisper_threads : Int
deriving DecidableEq, Repr

/-- The log path `Path(f"logs/{stem}.log")` set by `_set_input_file`
(whisper.py line 54). -/
def log_file_for (v : PyPath) : PyPath := ⟨["logs", v.stem ++ ".log"]⟩

/-- `Whisper._create_wav` (whisper.py lines 103-126): delete a stale
temp WAV file, print the WAV status line, and run ffmpeg, which writes
the temp WAV file when it succeeds. -/
def create_wav (tb : ToolBehavior) (fs : FS) (input_file : PyPath) : FS × List Event :=
  let temp_wav := get_temp_wav_path input_file
  let fsA := if fs.pathExists temp_wav then fs.removeFile temp_wav else fs
  let fsB := if tb.ffmpegWritesWav then fsA.createFile temp_wav else fsA
  (fsB, [Event.printed ("WAV:\t" ++ temp_wav.render), Event.ranFfmpeg])

/-- Result of one `create_subtitles` call: the filesystem after the
call, the event trace, and the propagated exception if any. -/
structure CsResult where
  fs : FS
  events : List Event
  err : Option PyError
deriving DecidableEq, Repr

/-- `Whisper.create_subtitles` (whisper.py lines 66-101): derive the
task paths and ensure the log directory (`_set_input_file`), then, if
the final SRT file is missing or force is set, open the log file, stage
the WAV file, run the transcriber, and relocate the temp transcript to
the final path (`shutil.move` raises when the source is absent);
otherwise print a skip status.  The subprocess exit codes in `tb` are
never consulted. -/
def create_subtitles (w : Cfg) (tb : ToolBehavior) (remove_temp_files : Bool)
    (fs : FS) (input_file : PyPath) : CsResult :=
  let log_file := log_file_for input_file
  let temp_wav := get_temp_wav_path input_file
  let temp_srt := get_temp_srt_path input_file
  let final_srt := get_final_srt_file input_file
  let fs1 := fs.makedirs log_file.parent
  if !fs1.pathExists final_srt || w.force_creation then
    let fs2 := fs1.createFile log_file
    let staged := create_wav tb fs2 input_file
    let fs5 := if tb.whisperWritesSrt then staged.1.createFile temp_srt else staged.1
    let evs := [Event.printed "Input files set"] ++ staged.2 ++
      [Event.printed ("CREATE:\t" ++ final_srt.render), Event.ranWhisper]
    if fs5.pathExists temp_srt then
      let fs6 := (fs5.removeFile temp_srt).createFile final_srt
      let fs7 := if remove_temp_files then fs6.removeFile temp_wav else fs6
      ⟨fs7, evs, none⟩
    else
      ⟨fs5, evs, some PyError.fileNotFound⟩
  else
    ⟨fs1, [Event.printed "Input files set",
      Event.printed ("SKIP:\t" ++ final_srt.stem ++ ".srt is present")], none⟩

end Whisper

/-- Staging the WAV file never creates or removes the temp transcript
file. -/
lemma create_wav_preserves_srt (tb : ToolBehavior) (fs : FS) (v : PyPath) :
    (Whisper.create_wav tb fs v).1.pathExists (Whisper.get_temp_srt_path v) =
      fs.pathExists (Whisper.get_temp_srt_path v) := by
  have hne := temp_srt_ne_temp_wav v
  have hc := fun fsx => FS.pathExists_createFile_of_ne fsx _ _ hne
  have hr := fun fsx => FS.pathExists_removeFile_of_ne fsx _ _ hne
  unfold Whisper.create_wav
  by_cases h1 : fs.pathExists (Whisper.get_temp_wav_path v) <;>
    by_cases h2 : tb.ffmpegWritesWav <;>
      simp [h1, h2, hc, hr]

/-- Claim C1: `create_subtitles` performs transcription work (runs the
whisper subprocess) exactly when the final subtitle path does not exist
or force is set; when the final subtitle exists and force is false, it
runs zero subprocesses, prints the skip status line, leaves every file
entry unchanged, and raises nothing. -/
theorem create_subtitles_gates_on_existence_and_force
    (w : Whisper.Cfg) (tb : ToolBehavior) (rtf : Bool) (fs : FS) (v : PyPath) :
    (Event.ranWhisper ∈ (Whisper.create_subtitles w tb rtf fs v).events ↔
      (fs.pathExists (Whisper.get_final_srt_file v) = false ∨ w.force_creation = true)) ∧
    (fs.pathExists (Whisper.get_final_srt_file v) = true → w.force_creation = false →
      (Whisper.create_subtitles w tb rtf fs v).events.countP Event.isSubprocess = 0 ∧
      Event.printed ("SKIP:\t" ++ (Whisper.get_final_srt_file v).stem ++ ".srt is present") ∈
        (Whisper.create_subtitles w tb rtf fs v).events ∧
      (Whisper.create_subtitles w tb rtf fs v).fs.filesList = fs.filesList ∧
      (Whisper.create_subtitles w tb rtf fs v).err = none) := by
  have hfin : (fs.makedirs (Whisper.log_file_for v).parent).pathExists
      (Whisper.get_final_srt_file v) = fs.pathExists (Whisper.get_final_srt_file v) :=
    FS.pathExists_makedirs_of_ne _ _ _ (final_srt_ne_logs v)
  simp only [Whisper.create_subtitles]
  rw [hfin]
  cases hE : fs.pathExists (Whisper.get_final_srt_file v) <;>
    cases hF : w.force_creation <;>
      simp [hE, hF, Whisper.create_wav, apply_ite Whisper.CsResult.events,
        FS.filesList_makedirs, List.countP_cons, Event.isSubprocess]

/-- An example snapshot for the skip scenario: directory `d` holding
`clip.webm` and an already-present `clip.en.srt`. -/
def fsSkip : FS :=
  ⟨[⟨⟨["d"]⟩, true, false⟩, ⟨⟨["d", "clip.webm"]⟩, false, false⟩,
    ⟨⟨["d", "clip.en.srt"]⟩, false, false⟩]⟩

/-- An example engine configuration with force off. -/
def wCfgSkip : Whisper.Cfg := ⟨some ⟨["main"]⟩, ⟨["models", "ggml.bin"]⟩, false, 2, 4⟩

/-- An example tool behaviour where both tools produce their output. -/
def tbOk : ToolBehavior := ⟨true, true, 0, 0⟩

/-- Witness for claim C1 at the skip scenario: `d/clip.en.srt` exists,
force is false, and the call runs zero subprocesses, prints the skip
status, and leaves all file entries unchanged. -/
theorem create_subtitles_gates_witness :
    (fsSkip.pathExists (Whisper.get_final_srt_file ⟨["d", "clip.webm"]⟩) = true ∧
      wCfgSkip.force_creation = false) ∧
    ((Whisper.create_subtitles wCfgSkip tbOk true fsSkip ⟨["d", "clip.webm"]⟩).events.countP
        Event.isSubprocess = 0 ∧
      Event.printed ("SKIP:\t" ++ (Whisper.get_final_srt_file ⟨["d", "clip.webm"]⟩).stem ++
          ".srt is present") ∈
        (Whisper.create_subtitles wCfgSkip tbOk true fsSkip ⟨["d", "clip.webm"]⟩).events ∧
      (Whisper.create_subtitles wCfgSkip tbOk true fsSkip ⟨["d", "clip.webm"]⟩).fs.filesList =
        fsSkip.filesList ∧
      (Whisper.create_subtitles wCfgSkip tbOk true fsSkip ⟨["d", "clip.webm"]⟩).err = none) :=
  ⟨⟨by decide, rfl⟩,
   (create_subtitles_gates_on_existence_and_force wCfgSkip tbOk true fsSkip
      ⟨["d", "clip.webm"]⟩).2 (by decide) rfl⟩

/-- The temp transcript path (three components) never equals the `logs`
directory (one component). -/
lemma temp_srt_ne_logs_dir (v : PyPath) :
    Whisper.get_temp_srt_path v ≠ (Whisper.log_file_for v).parent := by
  apply PyPath.ne_of_components_length
  simp [Whisper.get_temp_srt_path, PyPath.child, Whisper.temp_path,
    Whisper.log_file_for, PyPath.parent]

/-- The temp transcript path (three components) never equals the log
file path (two components). -/
lemma temp_srt_ne_log_file (v : PyPath) :
    Whisper.get_temp_srt_path v ≠ Whisper.log_file_for v := by
  apply PyPath.ne_of_components_length
  simp [Whisper.get_temp_srt_path, PyPath.child, Whisper.temp_path,
    Whisper.log_file_for]

/-- Claim C8: the outcome of `create_subtitles` never depends on the
exit codes of the two subprocesses (only on whether the tools produced
their files), and when the transcription tool does not produce the
expected temp transcript (and no stale one exists) while work is due,
the relocation step raises `FileNotFoundError`, which the call
propagates. -/
theorem move_failure_propagates_and_exit_codes_ignored
    (w : Whisper.Cfg) (tb tb' : ToolBehavior) (rtf : Bool) (fs : FS) (v : PyPath) :
    (tb.ffmpegWritesWav = tb'.ffmpegWritesWav → tb.whisperWritesSrt = tb'.whisperWritesSrt →
      Whisper.create_subtitles w tb rtf fs v = Whisper.create_subtitles w tb' rtf fs v) ∧
    (fs.pathExists (Whisper.get_temp_srt_path v) = false → tb.whisperWritesSrt = false →
      (fs.pathExists (Whisper.get_final_srt_file v) = false ∨ w.force_creation = true) →
      (Whisper.create_subtitles w tb rtf fs v).err = some PyError.fileNotFound) := by
  constructor
  · intro h1 h2
    simp only [Whisper.create_subtitles, Whisper.create_wav, h1, h2]
  · intro h0 hW hgate
    have s1 : (fs.makedirs (Whisper.log_file_for v).parent).pathExists
        (Whisper.get_temp_srt_path v) = false := by
      rw [FS.pathExists_makedirs_of_ne _ _ _ (temp_srt_ne_logs_dir v)]
      exact h0
    have s2 : ((fs.makedirs (Whisper.log_file_for v).parent).createFile
        (Whisper.log_file_for v)).pathExists (Whisper.get_temp_srt_path v) = false := by
      rw [FS.pathExists_createFile_of_ne _ _ _ (temp_srt_ne_log_file v)]
      exact s1
    have s3 : (Whisper.create_wav tb ((fs.makedirs (Whisper.log_file_for v).parent).createFile
        (Whisper.log_file_for v)) v).1.pathExists (Whisper.get_temp_srt_path v) = false := by
      rw [create_wav_preserves_srt]
      exact s2
    have hcond : (!(fs.makedirs (Whisper.log_file_for v).parent).pathExists
        (Whisper.get_final_srt_file v) || w.force_creation) = true := by
      have hfin : (fs.makedirs (Whisper.log_file_for v).parent).pathExists
          (Whisper.get_final_srt_file v) = fs.pathExists (Whisper.get_final_srt_file v) :=
        FS.pathExists_makedirs_of_ne _ _ _ (final_srt_ne_logs v)
      rw [hfin]
      rcases hgate with hg | hg <;> simp [hg]
    simp only [Whisper.create_subtitles]
    simp only [hcond]
    simp [hW, s3]

/-- An engine configuration with force on, for the failed-move
scenario. -/
def wCfgForce : Whisper.Cfg := ⟨some ⟨["main"]⟩, ⟨["models", "ggml.bin"]⟩, true, 2, 4⟩

/-- Tool behaviour where the transcriber produces no output, exit code
zero. -/
def tbNoSrt : ToolBehavior := ⟨true, false, 0, 0⟩

/-- The same tool behaviour with different exit codes. -/
def tbNoSrtExit : ToolBehavior := ⟨true, false, 2, 5⟩

/-- Witness for claim C8: with the transcriber producing no transcript
for `d/clip.webm`, the call result is independent of the exit codes and
ends with the propagated `FileNotFoundError`. -/
theorem move_failure_witness :
    (Whisper.create_subtitles wCfgForce tbNoSrt true fsSkip ⟨["d", "clip.webm"]⟩ =
      Whisper.create_subtitles wCfgForce tbNoSrtExit true fsSkip ⟨["d", "clip.webm"]⟩) ∧
    (Whisper.create_subtitles wCfgForce tbNoSrt true fsSkip ⟨["d", "clip.webm"]⟩).err =
      some PyError.fileNotFound :=
  ⟨(move_failure_propagates_and_exit_codes_ignored wCfgForce tbNoSrt tbNoSrtExit true fsSkip
      ⟨["d", "clip.webm"]⟩).1 rfl rfl,
   (move_failure_propagates_and_exit_codes_ignored wCfgForce tbNoSrt tbNoSrtExit true fsSkip
      ⟨["d", "clip.webm"]⟩).2 (by decide) rfl (Or.inr rfl)⟩

namespace Whisper

/-- The warning printed when ffmpeg threads exceed the CPU count
(whisper.py line 22). -/
def ffmpeg_warning : String :=
  "WARNING: ffmpeg_threads is greater than the number of CPU cores. Setting ffmpeg_threads to the number of CPU cores."

/-- The warning printed when whisper threads exceed the CPU count
(whisper.py line 28). -/
def whisper_warning : String :=
  "WARNING: whisper_threads is greater than the number of CPU cores. Setting whisper_threads to the number of CPU cores."

/-- `Whisper.__init__` (whisper.py lines 9-31): store the
configuration, clamping each thread count down to `os.cpu_count()` with
a printed warning when it exceeds the CPU count. -/
def init (cpu : Nat) (exe : Option PyPath) (model : PyPath) (force : Bool)
    (ffmpeg_threads whisper_threads : Int) : Cfg × List Event :=
  let f := if ffmpeg_threads > (cpu : Int) then
      (((cpu : Int)), [Event.printed ffmpeg_warning])
    else (ffmpeg_threads, ([] : List Event))
  let w := if whisper_threads > (cpu : Int) then
      (((cpu : Int)), [Event.printed whisper_warning])
    else (whisper_threads, ([] : List Event))
  (⟨exe, model, force, f.1, w.1⟩, f.2 ++ w.2)

end Whisper

/-- `__init__` emits only printed warnings, never a subprocess. -/
lemma init_events_no_subprocess (cpu : Nat) (exe : Option PyPath) (model : PyPath)
    (force : Bool) (ft wt : Int) :
    ((Whisper.init cpu exe model force ft wt).2).countP Event.isSubprocess = 0 := by
  by_cases hf : ft > (cpu : Int) <;> by_cases hw : wt > (cpu : Int) <;>
    simp [Whisper.init, hf, hw, Event.isSubprocess]

/-- Claim C7: each configured thread count exceeding the CPU count is
clamped down to the CPU count with a printed warning (never rejected);
a count not exceeding the CPU count is used as given, with no warning
for that count. -/
theorem thread_counts_clamped_to_cpu (cpu : Nat) (exe : Option PyPath) (model : PyPath)
    (force : Bool) (ft wt : Int) :
    ((ft > (cpu : Int) →
        (Whisper.init cpu exe model force ft wt).1.ffmpeg_threads = (cpu : Int) ∧
        Event.printed Whisper.ffmpeg_warning ∈ (Whisper.init cpu exe model force ft wt).2) ∧
      (ft ≤ (cpu : Int) →
        (Whisper.init cpu exe model force ft wt).1.ffmpeg_threads = ft ∧
        Event.printed Whisper.ffmpeg_warning ∉ (Whisper.init cpu exe model force ft wt).2)) ∧
    ((wt > (cpu : Int) →
        (Whisper.init cpu exe model force ft wt).1.whisper_threads = (cpu : Int) ∧
        Event.printed Whisper.whisper_warning ∈ (Whisper.init cpu exe model force ft wt).2) ∧
      (wt ≤ (cpu : Int) →
        (Whisper.init cpu exe model force ft wt).1.whisper_threads = wt ∧
        Event.printed Whisper.whisper_warning ∉ (Whisper.init cpu exe model force ft wt).2)) := by
  refine ⟨⟨?_, ?_⟩, ⟨?_, ?_⟩⟩
  · intro h
    by_cases hw : wt > (cpu : Int) <;> simp [Whisper.init, h, hw]
  · intro h
    have h' : ¬ (ft > (cpu : Int)) := by omega
    by_cases hw : wt > (cpu : Int) <;> simp [Whisper.init, h', hw, Whisper.ffmpeg_warning,
      Whisper.whisper_warning]
  · intro h
    by_cases hf : ft > (cpu : Int) <;> simp [Whisper.init, h, hf]
  · intro h
    have h' : ¬ (wt > (cpu : Int)) := by omega
    by_cases hf : ft > (cpu : Int) <;> simp [Whisper.init, h', hf, Whisper.ffmpeg_warning,
      Whisper.whisper_warning]

/-- Witness for claim C7 with 4 CPUs: ffmpeg threads 10 are clamped to
4 with the warning, whisper threads 3 are kept as 3 with no warning. -/
theorem thread_counts_clamped_witness :
    ((10 : Int) > ((4 : Nat) : Int) ∧ (3 : Int) ≤ ((4 : Nat) : Int)) ∧
    ((Whisper.init 4 none ⟨["m"]⟩ false 10 3).1.ffmpeg_threads = ((4 : Nat) : Int) ∧
      Event.printed Whisper.ffmpeg_warning ∈ (Whisper.init 4 none ⟨["m"]⟩ false 10 3).2) ∧
    ((Whisper.init 4 none ⟨["m"]⟩ false 10 3).1.whisper_threads = (3 : Int) ∧
      Event.printed Whisper.whisper_warning ∉ (Whisper.init 4 none ⟨["m"]⟩ false 10 3).2) :=
  ⟨⟨by decide, by decide⟩,
   (thread_counts_clamped_to_cpu 4 none ⟨["m"]⟩ false 10 3).1.1 (by decide),
   (thread_counts_clamped_to_cpu 4 none ⟨["m"]⟩ false 10 3).2.2 (by decide)⟩

namespace Arguments

/-- The accepted video extensions (main.py line 21). -/
def video_extensions : List String := [".mp4", ".mkv", ".avi", ".webm"]

/-- The parsed command-line arguments handed to the dataclass
(main.py lines 7-21 and 46-119). -/
structure ArgsIn where
  model_path : PyPath
  ffmpeg_threads : Int
  whisper_threads : Int
  input : PyPath
  force_creation : Bool
  executable : Option PyPath
  dry_run : Bool
deriving DecidableEq, Repr

/-- The fields `__post_init__` computes: the file/directory
classification and the resolved executable. -/
structure PostArgs where
  is_file : Bool
  executable : Option PyPath
deriving DecidableEq, Repr

/-- The executable-discovery scan (main.py lines 37-43): the first
entry of the model's grandparent directory that is a file with
executable permission. -/
def find_executable (fs : FS) (dir : PyPath) : Option PyPath :=
  ((fs.globStar dir).find? fun e => !e.isDir && e.isExec).map (·.path)

/-- The executable after `__post_init__`: the given one if provided,
else whatever the scan finds (`None` if nothing is found — the code
raises no error in that case). -/
def resolve_executable (fs : FS) (a : ArgsIn) : Option PyPath :=
  match a.executable with
  | some e => some e
  | none => find_executable fs a.model_path.parent.parent

/-- `Arguments.__post_init__` (main.py lines 23-43): if the input is an
existing file, reject it unless its suffix is an accepted video
extension; otherwise classify it as a directory; then resolve the
executable. -/
def post_init (fs : FS) (a : ArgsIn) : Except PyError PostArgs :=
  if fs.isFile a.input then
    if a.input.suffix ∈ video_extensions then Except.ok ⟨true, resolve_executable fs a⟩
    else Except.error PyError.valueError
  else Except.ok ⟨false, resolve_executable fs a⟩

end Arguments

/-- The keyword arguments main passes to `Whisper.should_create_srt`
in the dry-run branch (main.py line 145). -/
def dry_run_call_kwargs : List String := ["input_file", "force"]

/-- Python call binding for keyword arguments: every passed keyword
must name a declared parameter, else the call raises `TypeError`. -/
def callAccepts (params kwargs : List String) : Bool :=
  kwargs.all fun k => params.contains k

/-- Python `Path.with_suffix`: replace the suffix of the last
component. -/
def PyPath.with_suffix (p : PyPath) (suf : String) : PyPath :=
  ⟨p.components.dropLast ++ [p.stem ++ suf]⟩

/-- The input enumeration for directory mode (main.py line 138):
recursively collect the regular files whose suffix is an accepted video
extension. -/
def collect_input_files (fs : FS) (d : PyPath) : List PyPath :=
  (fs.rglobStar d).filter fun f =>
    fs.isFile f && decide (f.suffix ∈ Arguments.video_extensions)

/-- Outcome of one `main` run: final filesystem, event trace, the two
dry-run counters, and the propagated exception if any. -/
structure RunResult where
  fs : FS
  events : List Event
  toCreate : Nat
  existing : Nat
  err : Option PyError
deriving DecidableEq, Repr

/-- The dry-run results table (main.py lines 155-161). -/
def table_events (tc ex : Nat) : List Event :=
  [Event.printed "\n",
   Event.printed "========== RESULTS ==========",
   Event.printed ("To Create: " ++ toString tc),
   Event.printed ("Existing:  " ++ toString ex),
   Event.printed "============================="]

/-- The per-file loop of `main` (main.py lines 143-153).  In dry-run
mode the call `Whisper.should_create_srt(input_file=file, force=...)`
is bound first; since `force` is not a declared parameter the call
raises `TypeError` before anything is printed.  Otherwise
`create_subtitles` runs and any exception it raises aborts the loop. -/
def process_files (w : Whisper.Cfg) (tb : ToolBehavior) (dry_run : Bool) :
    List PyPath → FS → List Event → Nat → Nat → RunResult
  | [], fs, evs, tc, ex => ⟨fs, evs, tc, ex, none⟩
  | f :: rest, fs, evs, tc, ex =>
    if dry_run then
      if callAccepts Whisper.should_create_srt_params dry_run_call_kwargs then
        if Whisper.should_create_srt fs f then
          process_files w tb dry_run rest fs
            (evs ++ [Event.printed ("CREATE:\t" ++ (f.with_suffix ".en.srt").render)])
            (tc + 1) ex
        else
          process_files w tb dry_run rest fs
            (evs ++ [Event.printed ("EXISTS:\t" ++ (f.with_suffix ".en.srt").render)])
            tc (ex + 1)
      else ⟨fs, evs, tc, ex, some PyError.typeError⟩
    else
      match Whisper.create_subtitles w tb true fs f with
      | ⟨fs', evs', none⟩ =>
        process_files w tb dry_run rest fs' (evs ++ evs' ++ [Event.printed ""]) tc ex
      | ⟨fs', evs', some e⟩ => ⟨fs', evs ++ evs', tc, ex, some e⟩

/-- `main` (main.py lines 121-161): validate and resolve the arguments,
build the engine, enumerate the inputs, run the per-file loop, and in
dry-run mode print the results table (only reached when no exception
occurred). -/
def runMain (a : Arguments.ArgsIn) (tb : ToolBehavior) (cpu : Nat) (fs : FS) : RunResult :=
  match Arguments.post_init fs a with
  | .error e => ⟨fs, [], 0, 0, some e⟩
  | .ok pa =>
    let wi := Whisper.init cpu pa.executable a.model_path a.force_creation
      a.ffmpeg_threads a.whisper_threads
    let files := if pa.is_file then [a.input] else collect_input_files fs a.input
    let r := process_files wi.1 tb a.dry_run files fs wi.2 0 0
    if a.dry_run && decide (r.err = none) then
      ⟨r.fs, r.events ++ table_events r.toCreate r.existing, r.toCreate, r.existing, r.err⟩
    else r

/-- A path that does not exist is not a file. -/
lemma FS.isFile_eq_false_of_not_exists (fs : FS) (p : PyPath)
    (h : fs.pathExists p = false) : fs.isFile p = false := by
  cases hq : fs.isFile p with
  | false => rfl
  | true =>
    exfalso
    rw [FS.isFile, List.any_eq_true] at hq
    obtain ⟨e, he, hpe⟩ := hq
    rw [Bool.and_eq_true] at hpe
    have hx : fs.pathExists p = true := by
      rw [FS.pathExists, List.any_eq_true]
      exact ⟨e, he, hpe.1⟩
    rw [h] at hx
    exact Bool.false_ne_true hx

/-- A path that does not exist is not a directory. -/
lemma FS.isDir_eq_false_of_not_exists (fs : FS) (p : PyPath)
    (h : fs.pathExists p = false) : fs.isDir p = false := by
  cases hq : fs.isDir p with
  | false => rfl
  | true =>
    exfalso
    rw [FS.isDir, List.any_eq_true] at hq
    obtain ⟨e, he, hpe⟩ := hq
    rw [Bool.and_eq_true] at hpe
    have hx : fs.pathExists p = true := by
      rw [FS.pathExists, List.any_eq_true]
      exact ⟨e, he, hpe.1⟩
    rw [h] at hx
    exact Bool.false_ne_true hx

/-- A path is a file exactly when some non-directory entry carries it. -/
lemma FS.isFile_iff (fs : FS) (p : PyPath) :
    fs.isFile p = true ↔ ∃ e ∈ fs.entries, e.path = p ∧ e.isDir = false := by
  simp [FS.isFile, List.any_eq_true, Bool.and_eq_true, Bool.not_eq_true']

/-- The dry-run results table contains no subprocess event. -/
lemma table_events_no_subprocess (tc ex : Nat) :
    (table_events tc ex).countP Event.isSubprocess = 0 := by
  simp [table_events, Event.isSubprocess]

/-- Claim C5: when the input target is an existing file whose extension
is not an accepted video extension, the run rejects with `ValueError`
at configuration time: the filesystem is untouched and no event (in
particular no subprocess) has occurred. -/
theorem invalid_extension_rejected_before_processing
    (a : Arguments.ArgsIn) (tb : ToolBehavior) (cpu : Nat) (fs : FS)
    (h1 : fs.isFile a.input = true)
    (h2 : a.input.suffix ∉ Arguments.video_extensions) :
    runMain a tb cpu fs = ⟨fs, [], 0, 0, some PyError.valueError⟩ := by
  have hpost : Arguments.post_init fs a = Except.error PyError.valueError := by
    simp [Arguments.post_init, h1, h2]
  simp [runMain, hpost]

/-- A snapshot holding only the non-video file `clip.txt`. -/
def fsTxt : FS := ⟨[⟨⟨["clip.txt"]⟩, false, false⟩]⟩

/-- Arguments selecting `clip.txt` as single-file input. -/
def argsTxt : Arguments.ArgsIn :=
  ⟨⟨["models", "m", "ggml.bin"]⟩, 2, 4, ⟨["clip.txt"]⟩, false, some ⟨["main"]⟩, false⟩

/-- Witness for claim C5 at the single-file input `clip.txt`. -/
theorem invalid_extension_rejected_witness :
    (fsTxt.isFile argsTxt.input = true ∧
      argsTxt.input.suffix ∉ Arguments.video_extensions) ∧
    runMain argsTxt tbOk 4 fsTxt = ⟨fsTxt, [], 0, 0, some PyError.valueError⟩ :=
  ⟨⟨by decide, by decide⟩,
   invalid_extension_rejected_before_processing argsTxt tbOk 4 fsTxt (by decide) (by decide)⟩

/-- A directory `d` holding `a.mp4` (no subtitle) and `b.mkv` (subtitle
`b.en.srt` present). -/
def fsDry : FS :=
  ⟨[⟨⟨["d"]⟩, true, false⟩, ⟨⟨["d", "a.mp4"]⟩, false, false⟩,
    ⟨⟨["d", "b.mkv"]⟩, false, false⟩, ⟨⟨["d", "b.en.srt"]⟩, false, false⟩]⟩

/-- Arguments for a dry run over directory `d` with force off. -/
def argsDry : Arguments.ArgsIn :=
  ⟨⟨["models", "m", "ggml.bin"]⟩, 2, 4, ⟨["d"]⟩, false, some ⟨["main"]⟩, true⟩

/-- Claim C3: the dry run over `d` (two enumerated video files) raises
`TypeError` at the first file — the call site passes a `force` keyword
that `should_create_srt` does not declare — so both counters stay zero
instead of summing to the number of enumerated files; no subprocess
runs and no file changes, but only because the run crashes. -/
theorem dry_run_crashes_with_type_error :
    callAccepts Whisper.should_create_srt_params dry_run_call_kwargs = false ∧
    (collect_input_files fsDry ⟨["d"]⟩).length = 2 ∧
    runMain argsDry tbOk 4 fsDry = ⟨fsDry, [], 0, 0, some PyError.typeError⟩ := by
  decide

/-- Claim C4: for `d/clip.webm`, whose final subtitle `d/clip.en.srt`
exists, the existence-policy method returns false — it declares no
force parameter at all, so no force value can make it return true — and
the dry-run call site passing `force=` fails Python keyword binding
(`TypeError`). -/
theorem should_create_srt_ignores_force :
    Whisper.should_create_srt fsSkip ⟨["d", "clip.webm"]⟩ = false ∧
    callAccepts Whisper.should_create_srt_params dry_run_call_kwargs = false := by
  decide

/-- A snapshot where the model's grandparent directory `models` holds
no executable file, plus an empty input directory. -/
def fsNoExe : FS :=
  ⟨[⟨⟨["models"]⟩, true, false⟩, ⟨⟨["models", "notes.txt"]⟩, false, false⟩,
    ⟨⟨["models", "m"]⟩, true, false⟩, ⟨⟨["models", "m", "ggml.bin"]⟩, false, false⟩,
    ⟨⟨["empty"]⟩, true, false⟩]⟩

/-- Arguments omitting the executable, over the empty input
directory. -/
def argsNoExe : Arguments.ArgsIn :=
  ⟨⟨["models", "m", "ggml.bin"]⟩, 2, 4, ⟨["empty"]⟩, false, none, false⟩

deriving instance DecidableEq for Except

/-- Claim C6: with the executable omitted and the scan of the model's
grandparent directory finding no executable file, `__post_init__`
returns normally with the executable still unset, and the run completes
without any failure (here an empty directory: zero subprocesses) — the
code does not fail fast as the spec requires. -/
theorem missing_executable_run_proceeds :
    Arguments.find_executable fsNoExe (argsNoExe.model_path.parent.parent) = none ∧
    Arguments.post_init fsNoExe argsNoExe = Except.ok ⟨false, none⟩ ∧
    (runMain argsNoExe tbOk 4 fsNoExe).err = none ∧
    (runMain argsNoExe tbOk 4 fsNoExe).events.countP Event.isSubprocess = 0 := by
  decide

/-- Claim C9: in directory mode the enumeration collects exactly the
regular files strictly under the input directory whose extension is in
the accepted set, and excludes every file with any other extension. -/
theorem directory_enumeration_exact (fs : FS) (d p : PyPath)
    (h : fs.isDir d = true) :
    p ∈ collect_input_files fs d ↔
      (fs.isFile p = true ∧ d.components <+: p.components ∧ p ≠ d ∧
        p.suffix ∈ Arguments.video_extensions) := by
  simp only [collect_input_files, FS.rglobStar, h, if_true, List.mem_filter, List.mem_map,
    Bool.and_eq_true, decide_eq_true_eq, Bool.not_eq_true', decide_eq_false_iff_not]
  constructor
  · rintro ⟨⟨e, ⟨hee, hq1, hq2⟩, hep⟩, hfile, hsuf⟩
    subst hep
    exact ⟨hfile, hq1, hq2, hsuf⟩
  · rintro ⟨hfile, hpre, hne, hsuf⟩
    obtain ⟨e, he, hep, _⟩ := (FS.isFile_iff fs p).mp hfile
    refine ⟨⟨e, ⟨he, ?_, ?_⟩, hep⟩, hfile, hsuf⟩
    · rw [hep]
      exact hpre
    · rw [hep]
      exact hne

/-- A snapshot with directory `d` holding a nested video `d/x/v.mp4`
and a non-video `d/n.txt`. -/
def fsEnum : FS :=
  ⟨[⟨⟨["d"]⟩, true, false⟩, ⟨⟨["d", "x"]⟩, true, false⟩,
    ⟨⟨["d", "x", "v.mp4"]⟩, false, false⟩, ⟨⟨["d", "n.txt"]⟩, false, false⟩]⟩

/-- Witness for claim C9: `d` is a directory and the characterisation
holds at the nested file `d/x/v.mp4`. -/
theorem directory_enumeration_exact_witness :
    fsEnum.isDir ⟨["d"]⟩ = true ∧
    ((⟨["d", "x", "v.mp4"]⟩ : PyPath) ∈ collect_input_files fsEnum ⟨["d"]⟩ ↔
      (fsEnum.isFile ⟨["d", "x", "v.mp4"]⟩ = true ∧
        (⟨["d"]⟩ : PyPath).components <+: (⟨["d", "x", "v.mp4"]⟩ : PyPath).components ∧
        (⟨["d", "x", "v.mp4"]⟩ : PyPath) ≠ ⟨["d"]⟩ ∧
        (⟨["d", "x", "v.mp4"]⟩ : PyPath).suffix ∈ Arguments.video_extensions)) :=
  ⟨by decide, directory_enumeration_exact fsEnum ⟨["d"]⟩ ⟨["d", "x", "v.mp4"]⟩ (by decide)⟩

/-- Claim C10: when the path passed via the single-file flag does not
exist, the extension validation is skipped (`__post_init__` succeeds
with the directory classification), the recursive enumeration yields no
file, and the run completes without error, without touching the
filesystem, and without any subprocess. -/
theorem missing_input_skips_validation_and_processes_nothing
    (a : Arguments.ArgsIn) (tb : ToolBehavior) (cpu : Nat) (fs : FS)
    (h : fs.pathExists a.input = false) :
    Arguments.post_init fs a = Except.ok ⟨false, Arguments.resolve_executable fs a⟩ ∧
    collect_input_files fs a.input = [] ∧
    (runMain a tb cpu fs).err = none ∧
    (runMain a tb cpu fs).fs = fs ∧
    (runMain a tb cpu fs).events.countP Event.isSubprocess = 0 := by
  have hisf : fs.isFile a.input = false := FS.isFile_eq_false_of_not_exists fs a.input h
  have hisd : fs.isDir a.input = false := FS.isDir_eq_false_of_not_exists fs a.input h
  have hpost : Arguments.post_init fs a =
      Except.ok ⟨false, Arguments.resolve_executable fs a⟩ := by
    simp [Arguments.post_init, hisf]
  have hcoll : collect_input_files fs a.input = [] := by
    simp [collect_input_files, FS.rglobStar, hisd]
  have hmain : (runMain a tb cpu fs).err = none ∧ (runMain a tb cpu fs).fs = fs ∧
      (runMain a tb cpu fs).events.countP Event.isSubprocess = 0 := by
    cases hdr : a.dry_run <;>
      simp [runMain, hpost, hcoll, hdr, process_files, List.countP_append,
        init_events_no_subprocess, table_events_no_subprocess]
  exact ⟨hpost, hcoll, hmain.1, hmain.2.1, hmain.2.2⟩

/-- A small snapshot without the requested input path. -/
def fsGhost : FS := ⟨[⟨⟨["d"]⟩, true, false⟩]⟩

/-- Arguments whose single-file input `ghost.txt` does not exist. -/
def argsGhost : Arguments.ArgsIn :=
  ⟨⟨["models", "m", "ggml.bin"]⟩, 2, 4, ⟨["ghost.txt"]⟩, false, some ⟨["main"]⟩, false⟩

/-- Witness for claim C10 at the nonexistent input `ghost.txt`. -/
theorem missing_input_witness :
    fsGhost.pathExists argsGhost.input = false ∧
    (Arguments.post_init fsGhost argsGhost =
        Except.ok ⟨false, Arguments.resolve_executable fsGhost argsGhost⟩ ∧
      collect_input_files fsGhost argsGhost.input = [] ∧
      (runMain argsGhost tbOk 4 fsGhost).err = none ∧
      (runMain argsGhost tbOk 4 fsGhost).fs = fsGhost ∧
      (runMain argsGhost tbOk 4 fsGhost).events.countP Event.isSubprocess = 0) :=
  ⟨by decide,
   missing_input_skips_validation_and_processes_nothing argsGhost tbOk 4 fsGhost (by decide)⟩
